import Mathlib

/-!
# Verification of the mechanical-properties core of `app.py`

This file is a shallow embedding, over the exact rationals, of the function
`calculate_mechanical_properties` (src/app.py, lines 25-63), of the helper
behaviour of `scipy.stats.linregress` it calls, and of the positivity guard in
the Dash callback `update_output` (line 152).  IEEE-754 double arithmetic is
idealised as exact rational arithmetic; the constant `np.pi` is embedded as the
exact rational value of the IEEE-754 double that `numpy` uses.  Failures that
Python signals by raising an exception are embedded as `Except.error` values
tagged with the kind of exception raised.
-/

set_option maxRecDepth 10000

/-- The exact rational value of the IEEE-754 double `np.pi`
(`3.141592653589793115997963468544185161590576171875`), i.e.
`884279719003555 / 2^48`. -/
def np_pi : ℚ := 884279719003555 / 281474976710656

/-- The exceptions that can escape `calculate_mechanical_properties`:
`valueErrorEmpty` is the `ValueError` scipy's `linregress` raises on empty
inputs; `valueErrorIdenticalX` is the `ValueError` it raises when all x values
are identical (and there are at least two of them); `indexError` is the
`IndexError` raised at line 41 by `np.where(deviation > threshold)[0][0]` when
the match array is empty. -/
inductive PyError where
  | valueErrorEmpty
  | valueErrorIdenticalX
  | indexError
deriving DecidableEq, Repr

/-- The `slope`/`intercept` pair returned by `scipy.stats.linregress`
(line 37 of app.py uses only these two of its five results). -/
structure LinFit where
  slope : ℚ
  intercept : ℚ
deriving DecidableEq, Repr

/-- `scipy.stats.linregress(x, y)`, restricted to the slope and intercept.
Raises (`Except.error`) on empty input and on ≥ 2 identical x values; when the
x data has zero variance with a single point, scipy computes `slope = 0/0`,
which is NaN, and every later comparison against a NaN is `False`: this NaN
outcome is embedded as `Except.ok none`.  Otherwise `slope = ssxym / ssxm` and
`intercept = ymean - slope * xmean`, with `ssxm`/`ssxym` the biased (co)variance
of the sample, exactly as scipy computes them. -/
def linregress (x y : List ℚ) : Except PyError (Option LinFit) :=
  if x.length = 0 then Except.error PyError.valueErrorEmpty
  else if 1 < x.length && x.all (fun b => decide (b = x.headD 0)) then
    Except.error PyError.valueErrorIdenticalX
  else
    let n : ℚ := x.length
    let xmean := x.sum / n
    let ymean := y.sum / n
    let ssxm := (x.map (fun a => (a - xmean) ^ 2)).sum / n
    let ssxym := ((x.zip y).map (fun p => (p.1 - xmean) * (p.2 - ymean))).sum / n
    if ssxm = 0 then Except.ok none
    else Except.ok (some ⟨ssxym / ssxm, ymean - ssxym / ssxm * xmean⟩)

/-- The load column `Load_kN` of the uploaded data (line 27): the data frame is
embedded as a list of (load, displacement) rows, its two columns necessarily of
equal length, as the columns of a pandas `DataFrame` are. -/
def loadsOf (data : List (ℚ × ℚ)) : List ℚ := data.map Prod.fst

/-- The displacement column `Displacement_mm` of the uploaded data (line 28). -/
def dispsOf (data : List (ℚ × ℚ)) : List ℚ := data.map Prod.snd

/-- `A_0_mm2 = np.pi * radius_mm**2` with `radius_mm = diameter_mm / 2`
(lines 30-31). -/
def area (diameter_mm : ℚ) : ℚ := np_pi * (diameter_mm / 2) ^ 2

/-- `stress_MPa = load_N / A_0_mm2` with `load_N = load_kN * 1000`
(lines 29 and 32). -/
def stressOf (data : List (ℚ × ℚ)) (diameter_mm : ℚ) : List ℚ :=
  ((loadsOf data).map (fun p => p * 1000)).map (fun p => p / area diameter_mm)

/-- `strain = displacement_mm / gauge_length_mm` (line 33). -/
def strainOf (data : List (ℚ × ℚ)) (gauge_length_mm : ℚ) : List ℚ :=
  (dispsOf data).map (fun x => x / gauge_length_mm)

/-- `linear_points = int(len(stress_MPa) * 0.1)` (line 36).  For every
`n < 2^53` the double product `n * 0.1` rounds to a double whose integer part
is `n / 10`: the double `0.1` exceeds `1/10` by about `5.55e-18`, so the real
product is `n/10 + n * 5.55e-18`; when `10 ∣ n` this excess is below half an
ulp of the integer `n/10`, so the product rounds to exactly `n/10`, and
otherwise the excess cannot carry the value past the next integer.  Hence
`int(n * 0.1)` is embedded as truncating division by 10. -/
def linearPointsOf (data : List (ℚ × ℚ)) (diameter_mm : ℚ) : ℕ :=
  (stressOf data diameter_mm).length / 10

/-- `linregress(strain[:linear_points], stress_MPa[:linear_points])`
(line 37). -/
def fitOf (data : List (ℚ × ℚ)) (diameter_mm gauge_length_mm : ℚ) :
    Except PyError (Option LinFit) :=
  linregress ((strainOf data gauge_length_mm).take (linearPointsOf data diameter_mm))
    ((stressOf data diameter_mm).take (linearPointsOf data diameter_mm))

/-- `predicted_stress = slope * strain + intercept` (line 38). -/
def predictedOf (strain : List ℚ) (fit : LinFit) : List ℚ :=
  strain.map (fun e => fit.slope * e + fit.intercept)

/-- One entry of `deviation = np.abs(stress_MPa - predicted_stress) /
(stress_MPa + 1e-6)` (line 39). -/
def deviationAt (s p : ℚ) : ℚ := |s - p| / (s + 1 / 1000000)

/-- The elementwise `deviation` array of line 39. -/
def deviations (stress strain : List ℚ) (fit : LinFit) : List ℚ :=
  (stress.zip (predictedOf strain fit)).map (fun p => deviationAt p.1 p.2)

/-- The deviation array computed by `calculate_mechanical_properties` for a
given fit. -/
def devsOf (data : List (ℚ × ℚ)) (diameter_mm gauge_length_mm : ℚ)
    (fit : LinFit) : List ℚ :=
  deviations (stressOf data diameter_mm) (strainOf data gauge_length_mm) fit

/-- `np.where(l > t)[0][0]` (line 41): the index of the first entry strictly
above the threshold, or `none` when the match array is empty (in which case
Python raises `IndexError`). -/
def firstIdxAbove (t : ℚ) : List ℚ → Option ℕ
  | [] => none
  | dv :: rest => if t < dv then some 0 else (firstIdxAbove t rest).map (fun i => i + 1)

/-- `yield_index` as computed at line 41, with the fixed
`deviation_threshold = 0.05` of line 40. -/
def yieldIndexOf (data : List (ℚ × ℚ)) (diameter_mm gauge_length_mm : ℚ)
    (fit : LinFit) : Option ℕ :=
  firstIdxAbove (1 / 20) (devsOf data diameter_mm gauge_length_mm fit)

/-- `np.max` over a list (`np.max` of an empty array raises; the `0` default is
never reached by `calculate`, which only gets here with at least 20 rows). -/
def listMax : List ℚ → ℚ
  | [] => 0
  | a :: rest => rest.foldl max a

/-- The result dictionary of lines 55-63. -/
structure PropsResult where
  area_mm2 : ℚ
  youngs_modulus_MPa : ℚ
  yield_stress_MPa : ℚ
  uts_MPa : ℚ
  failure_strain_percent : ℚ
  displacement : List ℚ
  load : List ℚ
  strain : List ℚ
  stress : List ℚ
deriving DecidableEq, Repr

/-- The result dictionary built at lines 43-63 once `yield_index` is known:
`youngs_modulus_MPa = stress[yield_index] / strain[yield_index]` (line 44),
`yield_stress_MPa = stress[yield_index]` (line 47), `uts_MPa = np.max(stress)`
(line 50), `failure_strain = (np.max(displacement) / gauge_length) * 100`
(line 53), plus the raw and derived curves. -/
def mkResult (data : List (ℚ × ℚ)) (diameter_mm gauge_length_mm : ℚ)
    (yi : ℕ) : PropsResult :=
  { area_mm2 := area diameter_mm
  , youngs_modulus_MPa :=
      (stressOf data diameter_mm).getD yi 0 / (strainOf data gauge_length_mm).getD yi 0
  , yield_stress_MPa := (stressOf data diameter_mm).getD yi 0
  , uts_MPa := listMax (stressOf data diameter_mm)
  , failure_strain_percent := listMax (dispsOf data) / gauge_length_mm * 100
  , displacement := dispsOf data
  , load := loadsOf data
  , strain := strainOf data gauge_length_mm
  , stress := stressOf data diameter_mm }

/-- `calculate_mechanical_properties(data, diameter_mm, gauge_length_mm)`
(lines 25-63).  A NaN fit (single-point prefix) makes every comparison at
line 41 `False`, so the empty match array raises `IndexError`, exactly as a
curve whose deviation never exceeds the threshold does. -/
def calculate (data : List (ℚ × ℚ)) (diameter_mm gauge_length_mm : ℚ) :
    Except PyError PropsResult :=
  match fitOf data diameter_mm gauge_length_mm with
  | Except.error e => Except.error e
  | Except.ok none => Except.error PyError.indexError
  | Except.ok (some fit) =>
    match yieldIndexOf data diameter_mm gauge_length_mm fit with
    | none => Except.error PyError.indexError
    | some yi => Except.ok (mkResult data diameter_mm gauge_length_mm yi)

/-- Whether the computation returned a result rather than raising. -/
def calcOk (e : Except PyError PropsResult) : Bool :=
  match e with
  | Except.ok _ => true
  | Except.error _ => false

/-- The guard of `update_output` (line 152): every one of diameter, gauge
length and displacement rate must be a positive number, otherwise the callback
answers "Inputs must be positive numbers." and never invokes
`calculate_mechanical_properties`. -/
def inputs_positive (diameter gauge rate : ℚ) : Bool :=
  decide (0 < diameter) && decide (0 < gauge) && decide (0 < rate)

/-! ## Helper lemmas about list indexing -/

theorem getD_map_of_lt {α β : Type} (f : α → β) (da : α) (db : β) :
    ∀ (l : List α) (i : ℕ), i < l.length → (l.map f).getD i db = f (l.getD i da)
  | a :: l, 0, _ => rfl
  | a :: l, i + 1, h =>
    getD_map_of_lt f da db l i (Nat.lt_of_succ_lt_succ (by simpa using h))

theorem getD_zip_of_lt {α β : Type} (da : α) (db : β) :
    ∀ (l₁ : List α) (l₂ : List β) (i : ℕ), i < l₁.length → i < l₂.length →
      (l₁.zip l₂).getD i (da, db) = (l₁.getD i da, l₂.getD i db)
  | a :: l₁, b :: l₂, 0, _, _ => rfl
  | a :: l₁, b :: l₂, i + 1, h₁, h₂ =>
    getD_zip_of_lt da db l₁ l₂ i (Nat.lt_of_succ_lt_succ (by simpa using h₁))
      (Nat.lt_of_succ_lt_succ (by simpa using h₂))

theorem getD_eq_getElem_q {l : List ℚ} {i : ℕ} (h : i < l.length) :
    l.getD i 0 = l[i] := by
  simp [List.getD_eq_getElem?_getD, List.getElem?_eq_getElem h]

/-! ## Lengths of the derived sequences -/

theorem loadsOf_length (data : List (ℚ × ℚ)) : (loadsOf data).length = data.length := by
  simp [loadsOf]

theorem dispsOf_length (data : List (ℚ × ℚ)) : (dispsOf data).length = data.length := by
  simp [dispsOf]

theorem stressOf_length (data : List (ℚ × ℚ)) (d : ℚ) :
    (stressOf data d).length = data.length := by
  simp [stressOf, loadsOf]

theorem strainOf_length (data : List (ℚ × ℚ)) (L : ℚ) :
    (strainOf data L).length = data.length := by
  simp [strainOf, dispsOf]

theorem predictedOf_length (strain : List ℚ) (fit : LinFit) :
    (predictedOf strain fit).length = strain.length := by
  simp [predictedOf]

theorem devsOf_length (data : List (ℚ × ℚ)) (d L : ℚ) (fit : LinFit) :
    (devsOf data d L fit).length = data.length := by
  simp [devsOf, deviations, predictedOf_length, stressOf_length, strainOf_length]

theorem predictedOf_getD {strain : List ℚ} {fit : LinFit} {j : ℕ}
    (hj : j < strain.length) :
    (predictedOf strain fit).getD j 0 = fit.slope * strain.getD j 0 + fit.intercept := by
  unfold predictedOf
  exact getD_map_of_lt (fun e => fit.slope * e + fit.intercept) 0 0 strain j hj

/-- Entry `j` of the deviation array of line 39, in terms of the stress and
strain entries. -/
theorem devsOf_getD {data : List (ℚ × ℚ)} {d L : ℚ} {fit : LinFit} {j : ℕ}
    (hj : j < data.length) :
    (devsOf data d L fit).getD j 0 =
      deviationAt ((stressOf data d).getD j 0)
        (fit.slope * (strainOf data L).getD j 0 + fit.intercept) := by
  unfold devsOf deviations
  have hs : j < (stressOf data d).length := by rw [stressOf_length]; exact hj
  have hp : j < (predictedOf (strainOf data L) fit).length := by
    rw [predictedOf_length, strainOf_length]; exact hj
  have h1 := getD_map_of_lt (fun p : ℚ × ℚ => deviationAt p.1 p.2) (0, 0)
    (0 : ℚ) ((stressOf data d).zip (predictedOf (strainOf data L) fit)) j
    (by rw [List.length_zip]; exact lt_min hs hp)
  rw [h1, getD_zip_of_lt 0 0 _ _ j hs hp]
  rw [predictedOf_getD (by rw [strainOf_length]; exact hj)]

/-! ## The first-crossing scan of line 41 -/

theorem firstIdxAbove_spec (t : ℚ) :
    ∀ (l : List ℚ) (i : ℕ), firstIdxAbove t l = some i →
      i < l.length ∧ t < l.getD i 0 ∧ ∀ j, j < i → ¬ t < l.getD j 0 := by
  intro l
  induction l with
  | nil => intro i h; simp [firstIdxAbove] at h
  | cons a l ih =>
    intro i h
    by_cases hc : t < a
    · simp only [firstIdxAbove, if_pos hc, Option.some.injEq] at h
      subst h
      exact ⟨Nat.succ_pos _, hc, fun j hj => absurd hj (Nat.not_lt_zero j)⟩
    · simp only [firstIdxAbove, if_neg hc, Option.map_eq_some'] at h
      obtain ⟨i', hi', rfl⟩ := h
      obtain ⟨h1, h2, h3⟩ := ih i' hi'
      refine ⟨Nat.succ_lt_succ h1, by simpa using h2, ?_⟩
      intro j hj
      cases j with
      | zero => simpa using hc
      | succ j => simpa using h3 j (Nat.lt_of_succ_lt_succ hj)

theorem firstIdxAbove_of_none (t : ℚ) :
    ∀ (l : List ℚ), (∀ x ∈ l, ¬ t < x) → firstIdxAbove t l = none := by
  intro l
  induction l with
  | nil => intro _; rfl
  | cons a l ih =>
    intro h
    simp only [firstIdxAbove, if_neg (h a (List.mem_cons_self a l))]
    rw [ih (fun x hx => h x (List.mem_cons_of_mem a hx))]
    rfl

/-! ## The fold that embeds `np.max` -/

theorem le_foldl_max : ∀ (l : List ℚ) (a : ℚ), a ≤ l.foldl max a := by
  intro l
  induction l with
  | nil => intro a; exact le_refl a
  | cons b l ih => intro a; exact le_trans (le_max_left a b) (ih (max a b))

theorem foldl_max_mem : ∀ (l : List ℚ) (a : ℚ), l.foldl max a = a ∨ l.foldl max a ∈ l := by
  intro l
  induction l with
  | nil => intro a; exact Or.inl rfl
  | cons b l ih =>
    intro a
    rcases ih (max a b) with h | h
    · rcases max_choice a b with hm | hm
      · exact Or.inl (by rw [List.foldl_cons, h, hm])
      · exact Or.inr (by rw [List.foldl_cons, h, hm]; exact List.mem_cons_self b l)
    · exact Or.inr (List.mem_cons_of_mem b h)

theorem le_foldl_max_of_mem : ∀ (l : List ℚ) (a x : ℚ), x ∈ l → x ≤ l.foldl max a := by
  intro l
  induction l with
  | nil => intro a x hx; cases hx
  | cons b l ih =>
    intro a x hx
    rcases List.mem_cons.1 hx with rfl | hx
    · exact le_trans (le_max_right a x) (le_foldl_max l (max a x))
    · exact ih (max a b) x hx

theorem listMax_mem (l : List ℚ) (h : l ≠ []) : listMax l ∈ l := by
  cases l with
  | nil => exact absurd rfl h
  | cons a l =>
    rcases foldl_max_mem l a with h1 | h1
    · rw [listMax, h1]; exact List.mem_cons_self a l
    · exact List.mem_cons_of_mem a h1

theorem le_listMax (l : List ℚ) (x : ℚ) (hx : x ∈ l) : x ≤ listMax l := by
  cases l with
  | nil => cases hx
  | cons a l =>
    rcases List.mem_cons.1 hx with rfl | hx
    · exact le_foldl_max l x
    · exact le_foldl_max_of_mem l a x hx

/-! ## Glue lemmas: inverting and introducing `calculate` -/

theorem calculate_ok_elim {data : List (ℚ × ℚ)} {d L : ℚ} {r : PropsResult}
    (h : calculate data d L = Except.ok r) :
    ∃ fit yi, fitOf data d L = Except.ok (some fit) ∧
      yieldIndexOf data d L fit = some yi ∧ r = mkResult data d L yi := by
  unfold calculate at h
  split at h
  · simp at h
  · simp at h
  · rename_i fit heq
    split at h
    · simp at h
    · rename_i yi heq2
      simp only [Except.ok.injEq] at h
      exact ⟨fit, yi, heq, heq2, h.symm⟩

theorem calculate_ok_intro {data : List (ℚ × ℚ)} {d L : ℚ} {fit : LinFit} {yi : ℕ}
    (hf : fitOf data d L = Except.ok (some fit))
    (hyi : yieldIndexOf data d L fit = some yi) :
    calculate data d L = Except.ok (mkResult data d L yi) := by
  unfold calculate
  split
  · rename_i e heq; rw [hf] at heq; simp at heq
  · rename_i heq; rw [hf] at heq; simp at heq
  · rename_i fit2 heq
    rw [hf] at heq
    simp only [Except.ok.injEq, Option.some.injEq] at heq
    subst heq
    split
    · rename_i heq2; rw [hyi] at heq2; simp at heq2
    · rename_i yi2 heq2
      rw [hyi] at heq2
      simp only [Option.some.injEq] at heq2
      subst heq2
      rfl

theorem calculate_fit_error {data : List (ℚ × ℚ)} {d L : ℚ} {e : PyError}
    (hf : fitOf data d L = Except.error e) :
    calculate data d L = Except.error e := by
  unfold calculate
  split
  · rename_i e2 heq; rw [hf] at heq; simp only [Except.error.injEq] at heq; rw [heq]
  · rename_i heq; rw [hf] at heq; simp at heq
  · rename_i fit2 heq; rw [hf] at heq; simp at heq

theorem calculate_fit_nan {data : List (ℚ × ℚ)} {d L : ℚ}
    (hf : fitOf data d L = Except.ok none) :
    calculate data d L = Except.error PyError.indexError := by
  unfold calculate
  split
  · rename_i e2 heq; rw [hf] at heq; simp at heq
  · rfl
  · rename_i fit2 heq; rw [hf] at heq; simp at heq

theorem calculate_no_yield {data : List (ℚ × ℚ)} {d L : ℚ} {fit : LinFit}
    (hf : fitOf data d L = Except.ok (some fit))
    (hyi : yieldIndexOf data d L fit = none) :
    calculate data d L = Except.error PyError.indexError := by
  unfold calculate
  split
  · rename_i e2 heq; rw [hf] at heq; simp at heq
  · rfl
  · rename_i fit2 heq
    rw [hf] at heq
    simp only [Except.ok.injEq, Option.some.injEq] at heq
    subst heq
    split
    · rfl
    · rename_i yi2 heq2; rw [hyi] at heq2; simp at heq2

/-- A successful `linregress` call implies the dataset had at least 10 rows
(otherwise the elastic prefix is empty and scipy raises `ValueError`). -/
theorem fitOf_ok_ten {data : List (ℚ × ℚ)} {d L : ℚ} {f : Option LinFit}
    (h : fitOf data d L = Except.ok f) : 10 ≤ data.length := by
  by_contra hlt
  push_neg at hlt
  have hk : linearPointsOf data d = 0 := by
    unfold linearPointsOf
    rw [stressOf_length]
    omega
  unfold fitOf at h
  rw [hk] at h
  simp [linregress] at h

/-- `linregress` on a single-point sample: the sample variance `ssxm` is zero,
scipy computes `slope = 0/0 = NaN` (embedded as `Except.ok none`). -/
theorem linregress_single (a : ℚ) (y : List ℚ) : linregress [a] y = Except.ok none := by
  unfold linregress
  norm_num

/-- With fewer than 20 rows the prefix holds at most one point and the call
never produces a result: an empty prefix raises `ValueError` inside
`linregress`, and a one-point prefix yields a NaN fit whose deviation scan
matches nothing, so line 41 raises `IndexError`. -/
theorem calculate_short_fails {data : List (ℚ × ℚ)} {d L : ℚ}
    (hn : data.length < 20) : calcOk (calculate data d L) = false := by
  by_cases h10 : data.length < 10
  · have hk : linearPointsOf data d = 0 := by
      unfold linearPointsOf; rw [stressOf_length]; omega
    have hf : fitOf data d L = Except.error PyError.valueErrorEmpty := by
      unfold fitOf; rw [hk]; simp [linregress]
    rw [calculate_fit_error hf]; rfl
  · push_neg at h10
    have hk : linearPointsOf data d = 1 := by
      unfold linearPointsOf; rw [stressOf_length]; omega
    have hne : strainOf data L ≠ [] := by
      have : (strainOf data L).length = data.length := strainOf_length data L
      intro hcon; rw [hcon] at this; simp at this; omega
    obtain ⟨a, tl, htl⟩ := List.exists_cons_of_ne_nil hne
    have hf : fitOf data d L = Except.ok none := by
      unfold fitOf; rw [hk, htl]
      simp only [List.take_succ_cons, List.take_zero]
      exact linregress_single a _
    rw [calculate_fit_nan hf]; rfl

/-! ## Concrete datasets used to instantiate the theorems

Loads are chosen of the form `np_pi * a / 1000` (with the diameter 2, so that
`A_0 = np_pi`) or `9 * np_pi * a / 1000` (diameter ±6, `A_0 = 9 * np_pi`), which
makes the stresses exactly the rational numbers `a`. -/

/-- 20 rows whose first 19 stresses lie exactly on the line `stress = strain`
(gauge length 1), with a final stress of 100 at strain 19: the elastic prefix is
the first 2 points, the fit is `slope = 1, intercept = 0`, and only index 19
deviates (by 81 / 100.000001 ≈ 0.81). -/
def dataA : List (ℚ × ℚ) :=
  ((List.range 19).map (fun i => (np_pi * i / 1000, (i : ℚ)))) ++ [(np_pi * 100 / 1000, 19)]

/-- 19 rows (so the elastic prefix holds a single point). -/
def dataB19 : List (ℚ × ℚ) :=
  ((List.range 18).map (fun i => (np_pi * i / 1000, (i : ℚ)))) ++ [(np_pi * 100 / 1000, 18)]

/-- 9 rows (so the elastic prefix is empty). -/
def dataB9 : List (ℚ × ℚ) :=
  (List.range 9).map (fun i => (np_pi * i / 1000, (i : ℚ)))

/-- 20 rows on a perfect line `stress = strain`: every deviation is 0. -/
def dataLin : List (ℚ × ℚ) :=
  (List.range 20).map (fun i => (np_pi * i / 1000, (i : ℚ)))

/-- Like `dataA` but scaled for the cross-section of diameter ±6. -/
def dataNegD : List (ℚ × ℚ) :=
  ((List.range 19).map (fun i => (9 * np_pi * i / 1000, (i : ℚ)))) ++
    [(9 * np_pi * 100 / 1000, 19)]

/-- Stress values with the maximum (500) injected at index 10. -/
def aMid (i : ℕ) : ℚ := if i = 10 then 500 else i

/-- Displacement values with the maximum (50) injected at index 12. -/
def eMid (i : ℕ) : ℚ := if i = 12 then 50 else i

/-- 20 rows whose stress maximum (500) sits at index 10 and whose displacement
maximum (50) sits at index 12 — neither at the last sample, and not at the same
sample as each other. -/
def dataMid : List (ℚ × ℚ) :=
  (List.range 20).map (fun i => (np_pi * aMid i / 1000, eMid i))

/-- A single row whose load `-np_pi / 10^9` kN gives a stress of exactly
`-1e-6` MPa at diameter 2. -/
def dataEps : List (ℚ × ℚ) := [(-np_pi / 1000000000, 0)]

/-! ## The claims -/

/-- C1: For every curve on which the computation succeeds, the detected yield
index is the first index i (scanning from index 0 upward) at which
deviation[i] > 0.05, where deviation[i] = |stress[i] - (slope*strain[i] +
intercept)| / (stress[i] + 1e-6), with slope and intercept taken from the
linear fit over the elastic prefix. -/
theorem yield_index_is_first_deviation_crossing (data : List (ℚ × ℚ)) (d L : ℚ)
    (fit : LinFit) (yi : ℕ)
    (hf : fitOf data d L = Except.ok (some fit))
    (hyi : yieldIndexOf data d L fit = some yi) :
    calculate data d L = Except.ok (mkResult data d L yi) ∧
    1 / 20 < deviationAt ((stressOf data d).getD yi 0)
      (fit.slope * (strainOf data L).getD yi 0 + fit.intercept) ∧
    ∀ j, j < yi → ¬ (1 / 20 < deviationAt ((stressOf data d).getD j 0)
      (fit.slope * (strainOf data L).getD j 0 + fit.intercept)) := by
  obtain ⟨hlen, hdev, hprev⟩ := firstIdxAbove_spec (1 / 20) (devsOf data d L fit) yi hyi
  have hlen2 : yi < data.length := by rwa [devsOf_length] at hlen
  refine ⟨calculate_ok_intro hf hyi, ?_, ?_⟩
  · rw [← devsOf_getD hlen2]; exact hdev
  · intro j hj
    have hjlen : j < data.length := lt_trans hj hlen2
    rw [← devsOf_getD hjlen]
    exact hprev j hj

/-- Witness for C1 at `dataA` (diameter 2, gauge length 1): the fit is
`{slope := 1, intercept := 0}` and the detected yield index is 19. -/
theorem yield_index_is_first_deviation_crossing_witness :
    calculate dataA 2 1 = Except.ok (mkResult dataA 2 1 19) ∧
    1 / 20 < deviationAt ((stressOf dataA 2).getD 19 0)
      ((LinFit.mk 1 0).slope * (strainOf dataA 1).getD 19 0 + (LinFit.mk 1 0).intercept) ∧
    ∀ j, j < 19 → ¬ (1 / 20 < deviationAt ((stressOf dataA 2).getD j 0)
      ((LinFit.mk 1 0).slope * (strainOf dataA 1).getD j 0 + (LinFit.mk 1 0).intercept)) :=
  yield_index_is_first_deviation_crossing dataA 2 1 (LinFit.mk 1 0) 19
    (by with_unfolding_all rfl) (by with_unfolding_all rfl)

/-- C2: For every input on which the computation succeeds with yield index yi,
the returned Young's modulus equals stress[yi] / strain[yi] (the secant modulus
at the detected yield point), and is not the fitted slope of the linear fit
(witnessed by an input where the two differ). -/
theorem youngs_modulus_is_secant_at_yield :
    (∀ (data : List (ℚ × ℚ)) (d L : ℚ) (fit : LinFit) (yi : ℕ) (r : PropsResult),
      calculate data d L = Except.ok r →
      fitOf data d L = Except.ok (some fit) →
      yieldIndexOf data d L fit = some yi →
      r.youngs_modulus_MPa = (stressOf data d).getD yi 0 / (strainOf data L).getD yi 0) ∧
    (∃ (data : List (ℚ × ℚ)) (d L : ℚ) (fit : LinFit) (r : PropsResult),
      fitOf data d L = Except.ok (some fit) ∧
      calculate data d L = Except.ok r ∧
      r.youngs_modulus_MPa ≠ fit.slope) := by
  constructor
  · intro data d L fit yi r hcalc hf hyi
    have hmk := calculate_ok_intro hf hyi
    rw [hcalc] at hmk
    simp only [Except.ok.injEq] at hmk
    rw [hmk]
    rfl
  · refine ⟨dataA, 2, 1, LinFit.mk 1 0, mkResult dataA 2 1 19,
      by with_unfolding_all rfl, by with_unfolding_all rfl, ?_⟩
    with_unfolding_all decide

/-- Witness for C2 at `dataA`: the returned modulus is
`stress[19] / strain[19]`. -/
theorem youngs_modulus_is_secant_at_yield_witness :
    (mkResult dataA 2 1 19).youngs_modulus_MPa =
      (stressOf dataA 2).getD 19 0 / (strainOf dataA 1).getD 19 0 :=
  youngs_modulus_is_secant_at_yield.1 dataA 2 1 (LinFit.mk 1 0) 19
    (mkResult dataA 2 1 19) (by with_unfolding_all rfl) (by with_unfolding_all rfl)
    (by with_unfolding_all rfl)

/-- C3 counterexample: with 19 rows (prefix of 1 point) the failure is the
`IndexError` of line 41 — the NaN fit survives the `linregress` call and the
computation dies at the yield lookup, not in an insufficient-data check at the
fit stage; with 9 rows (empty prefix) it is scipy's empty-input `ValueError`.
Neither failure is an `InsufficientDataError`: no such error exists in the
code. -/
theorem insufficient_data_error_missing_counterexample :
    calculate dataB19 2 1 = Except.error PyError.indexError ∧
    calculate dataB9 2 1 = Except.error PyError.valueErrorEmpty := by
  constructor
  · with_unfolding_all rfl
  · with_unfolding_all rfl

/-- C3 amended: the elastic prefix holds exactly `k = n / 10` points (the
truncation `int(n * 0.1)`, never rounded up), and whenever `n < 20`
(equivalently `k < 2`) the computation fails — with scipy's empty-input
`ValueError` for `k = 0` and with the `IndexError` that follows the NaN fit
for `k = 1`, not with a dedicated `InsufficientDataError` — while at `n = 20`
the fit proceeds with `k = 2` (shown at `dataA`). -/
theorem prefix_floor_and_short_input_failure :
    (∀ (data : List (ℚ × ℚ)) (d : ℚ), linearPointsOf data d = data.length / 10) ∧
    (∀ (data : List (ℚ × ℚ)) (d L : ℚ), data.length < 20 →
      calcOk (calculate data d L) = false) ∧
    linearPointsOf dataA 2 = 2 ∧
    fitOf dataA 2 1 = Except.ok (some (LinFit.mk 1 0)) := by
  refine ⟨?_, ?_, ?_, ?_⟩
  · intro data d
    unfold linearPointsOf
    rw [stressOf_length]
  · intro data d L hn
    exact calculate_short_fails hn
  · with_unfolding_all rfl
  · with_unfolding_all rfl

/-- Witness for the amended C3 at a 19-row input: the computation fails. -/
theorem prefix_floor_and_short_input_failure_witness :
    calcOk (calculate dataB19 2 1) = false :=
  prefix_floor_and_short_input_failure.2.1 dataB19 2 1 (by with_unfolding_all decide)

/-- C4 counterexample: on a perfectly linear 20-row curve the computation fails
with the `IndexError` raised by the out-of-bounds `[0]` on the empty array
returned by `np.where` — there is no explicitly handled `NoYieldDetectedError`
in the code. -/
theorem no_yield_error_unhandled_counterexample :
    calculate dataLin 2 1 = Except.error PyError.indexError := by
  with_unfolding_all rfl

/-- C4 amended: for every curve on which no index has deviation exceeding the
threshold 0.05 the computation fails — no partial result is returned — but it
does so by the uncaught `IndexError` of the out-of-bounds access
`np.where(...)[0][0]` on an empty match array, not by an explicitly handled
`NoYieldDetectedError`. -/
theorem no_yield_raises_index_error (data : List (ℚ × ℚ)) (d L : ℚ) (fit : LinFit)
    (hf : fitOf data d L = Except.ok (some fit))
    (hnone : ∀ j, j < data.length → ¬ (1 / 20 < deviationAt ((stressOf data d).getD j 0)
      (fit.slope * (strainOf data L).getD j 0 + fit.intercept))) :
    calculate data d L = Except.error PyError.indexError := by
  apply calculate_no_yield hf
  unfold yieldIndexOf
  apply firstIdxAbove_of_none
  intro x hx
  obtain ⟨j, hj, rfl⟩ := List.mem_iff_getElem.1 hx
  have hjd : j < data.length := by rwa [devsOf_length] at hj
  rw [← getD_eq_getElem_q hj, devsOf_getD hjd]
  exact hnone j hjd

/-- Witness for the amended C4 at the perfectly linear `dataLin` (every
deviation is 0, never above 0.05). -/
theorem no_yield_raises_index_error_witness :
    calculate dataLin 2 1 = Except.error PyError.indexError :=
  no_yield_raises_index_error dataLin 2 1 (LinFit.mk 1 0)
    (by with_unfolding_all rfl) (by with_unfolding_all decide)

/-- C5 counterexample: the core computation succeeds on a strictly negative
diameter (-6) — the claimed `InvalidInputError` on non-positive geometry does
not exist in `calculate_mechanical_properties`, which performs no input
validation at all. -/
theorem no_invalid_input_error_counterexample :
    calcOk (calculate dataNegD (-6) 1) = true := by
  with_unfolding_all rfl

/-- C5 amended: the core computation performs no input validation of its own.
The positivity check on diameter, gauge length and displacement rate lives in
the UI callback `update_output` (line 152), which refuses to call the core
otherwise; an empty dataset fails only downstream, inside `linregress`, with an
empty-input `ValueError` rather than an `InvalidInputError` in a Curve-Builder
stage (and mismatched-length columns cannot arise from a pandas data frame). -/
theorem validation_lives_in_callback :
    (∀ d L rate : ℚ, inputs_positive d L rate = true → 0 < d ∧ 0 < L) ∧
    (∀ d L : ℚ, calculate [] d L = Except.error PyError.valueErrorEmpty) := by
  constructor
  · intro d L rate h
    simp only [inputs_positive, Bool.and_eq_true, decide_eq_true_eq] at h
    exact ⟨h.1.1, h.1.2⟩
  · intro d L
    apply calculate_fit_error
    unfold fitOf linearPointsOf
    simp [stressOf, strainOf, loadsOf, dispsOf, linregress]

/-- Witness for the amended C5: the callback guard accepts (3, 4, 5), which are
indeed positive, and the empty dataset fails with the empty-input error. -/
theorem validation_lives_in_callback_witness :
    (0 < (3 : ℚ) ∧ 0 < (4 : ℚ)) ∧
    calculate [] 6 1 = Except.error PyError.valueErrorEmpty :=
  ⟨validation_lives_in_callback.1 3 4 5 (by with_unfolding_all rfl),
   validation_lives_in_callback.2 6 1⟩

/-- C6: For every valid input (diameter > 0, gauge length > 0), the Curve
Builder produces stress[i] = (load_kN[i] * 1000) / (np_pi * (diameter/2)^2) and
strain[i] = displacement[i] / gaugeLength for every index i, and the returned
area_mm2 equals np_pi * (diameter/2)^2 independent of the load and displacement
values (`np_pi` being the exact double value of `np.pi`). -/
theorem curve_builder_formulas (data : List (ℚ × ℚ)) (d L : ℚ)
    (hd : 0 < d) (hL : 0 < L) :
    (∀ i, i < data.length →
      (stressOf data d).getD i 0 = (data.getD i (0, 0)).1 * 1000 / (np_pi * (d / 2) ^ 2) ∧
      (strainOf data L).getD i 0 = (data.getD i (0, 0)).2 / L) ∧
    (∀ r, calculate data d L = Except.ok r → r.area_mm2 = np_pi * (d / 2) ^ 2) := by
  constructor
  · intro i hi
    constructor
    · unfold stressOf
      have h1 : i < ((loadsOf data).map (fun p => p * 1000)).length := by
        simp only [List.length_map, loadsOf]
        exact hi
      rw [getD_map_of_lt (fun p => p / area d) 0 0 _ i h1]
      have h2 : i < (loadsOf data).length := by
        simp only [List.length_map, loadsOf]
        exact hi
      rw [getD_map_of_lt (fun p => p * 1000) 0 0 _ i h2]
      unfold loadsOf
      rw [getD_map_of_lt Prod.fst (0, 0) 0 data i hi]
      rfl
    · unfold strainOf
      have h2 : i < (dispsOf data).length := by
        simp only [dispsOf, List.length_map]
        exact hi
      rw [getD_map_of_lt (fun x => x / L) 0 0 _ i h2]
      unfold dispsOf
      rw [getD_map_of_lt Prod.snd (0, 0) 0 data i hi]
  · intro r hr
    obtain ⟨fit, yi, hfit, hyi, rfl⟩ := calculate_ok_elim hr
    rfl

/-- Witness for C6 at `dataA`, index 5, diameter 2, gauge length 1. -/
theorem curve_builder_formulas_witness :
    (stressOf dataA 2).getD 5 0 = (dataA.getD 5 (0, 0)).1 * 1000 / (np_pi * ((2 : ℚ) / 2) ^ 2) ∧
    (strainOf dataA 1).getD 5 0 = (dataA.getD 5 (0, 0)).2 / 1 :=
  (curve_builder_formulas dataA 2 1 (by with_unfolding_all decide)
    (by with_unfolding_all decide)).1 5 (by with_unfolding_all decide)

/-- C7: For every input on which the computation succeeds, the returned
failureStrainPercent equals (max over the displacement sequence / gaugeLength)
* 100, where the maximum is the sequence-wide maximum: it is an element of the
displacement sequence that bounds every sample, whether or not it is the last
sample or the UTS sample. -/
theorem failure_strain_uses_global_max_displacement (data : List (ℚ × ℚ))
    (d L : ℚ) (r : PropsResult) (h : calculate data d L = Except.ok r) :
    r.failure_strain_percent = listMax (dispsOf data) / L * 100 ∧
    listMax (dispsOf data) ∈ dispsOf data ∧
    ∀ x ∈ dispsOf data, x ≤ listMax (dispsOf data) := by
  obtain ⟨fit, yi, hfit, hyi, rfl⟩ := calculate_ok_elim h
  have h10 := fitOf_ok_ten hfit
  refine ⟨rfl, ?_, fun x hx => le_listMax _ x hx⟩
  apply listMax_mem
  intro hcon
  have hlen := dispsOf_length data
  rw [hcon] at hlen
  simp only [List.length_nil] at hlen
  omega

/-- Witness for C7 at `dataMid`, whose displacement maximum (50) sits at
index 12, not at the last sample and not at the stress-maximum sample. -/
theorem failure_strain_uses_global_max_displacement_witness :
    (mkResult dataMid 2 1 10).failure_strain_percent = listMax (dispsOf dataMid) / 1 * 100 ∧
    listMax (dispsOf dataMid) ∈ dispsOf dataMid ∧
    ∀ x ∈ dispsOf dataMid, x ≤ listMax (dispsOf dataMid) :=
  failure_strain_uses_global_max_displacement dataMid 2 1 (mkResult dataMid 2 1 10)
    (by with_unfolding_all rfl)

/-- C8: For every input on which the computation succeeds, the returned
ultimate tensile strength equals the maximum of the stress sequence taken over
the entire curve: an element of the stress sequence that bounds every entry,
at whatever index it occurs. -/
theorem uts_is_global_stress_max (data : List (ℚ × ℚ)) (d L : ℚ)
    (r : PropsResult) (h : calculate data d L = Except.ok r) :
    r.uts_MPa = listMax (stressOf data d) ∧
    listMax (stressOf data d) ∈ stressOf data d ∧
    ∀ x ∈ stressOf data d, x ≤ listMax (stressOf data d) := by
  obtain ⟨fit, yi, hfit, hyi, rfl⟩ := calculate_ok_elim h
  have h10 := fitOf_ok_ten hfit
  refine ⟨rfl, ?_, fun x hx => le_listMax _ x hx⟩
  apply listMax_mem
  intro hcon
  have hlen := stressOf_length data d
  rw [hcon] at hlen
  simp only [List.length_nil] at hlen
  omega

/-- Witness for C8 at `dataMid`, whose stress maximum (500) is injected at
index 10, strictly inside the curve. -/
theorem uts_is_global_stress_max_witness :
    (mkResult dataMid 2 1 10).uts_MPa = listMax (stressOf dataMid 2) ∧
    listMax (stressOf dataMid 2) ∈ stressOf dataMid 2 ∧
    ∀ x ∈ stressOf dataMid 2, x ≤ listMax (stressOf dataMid 2) :=
  uts_is_global_stress_max dataMid 2 1 (mkResult dataMid 2 1 10)
    (by with_unfolding_all rfl)

/-- C9: For every valid input of length n, the curve embedded in the result
satisfies len(stress) == len(strain) == n, for every successfully produced
result. -/
theorem result_curve_lengths (data : List (ℚ × ℚ)) (d L : ℚ)
    (r : PropsResult) (h : calculate data d L = Except.ok r) :
    r.stress.length = data.length ∧ r.strain.length = data.length := by
  obtain ⟨fit, yi, hfit, hyi, rfl⟩ := calculate_ok_elim h
  exact ⟨stressOf_length data d, strainOf_length data L⟩

/-- Witness for C9 at `dataA`. -/
theorem result_curve_lengths_witness :
    (mkResult dataA 2 1 19).stress.length = dataA.length ∧
    (mkResult dataA 2 1 19).strain.length = dataA.length :=
  result_curve_lengths dataA 2 1 (mkResult dataA 2 1 19) (by with_unfolding_all rfl)

/-- C10: The ε = 1e-6 guard in the deviation denominator only protects
non-negative stress: the one-row input `dataEps` (load `-np_pi/10^9` kN,
diameter 2) produces stress[0] = -1e-6 MPa, for which the denominator
stress[0] + 1e-6 is exactly zero, so the deviation computation divides by
zero; and for any stress s < -1e-6 the denominator is negative, making the
computed deviation non-positive, so it can never exceed the 0.05 threshold at
that index. -/
theorem epsilon_guard_fails_for_negative_stress :
    ((stressOf dataEps 2).getD 0 0 = -(1 / 1000000) ∧
     (stressOf dataEps 2).getD 0 0 + 1 / 1000000 = 0) ∧
    (∀ s p : ℚ, s < -(1 / 1000000) →
      deviationAt s p ≤ 0 ∧ ¬ (1 / 20 < deviationAt s p)) := by
  constructor
  · constructor
    · have hpi : np_pi ≠ 0 := by unfold np_pi; norm_num
      simp [stressOf, loadsOf, dataEps, area]
      field_simp
      ring
    · with_unfolding_all decide
  · intro s p hs
    have hden : s + 1 / 1000000 < 0 := by linarith
    have h1 : deviationAt s p ≤ 0 := by
      unfold deviationAt
      exact div_nonpos_iff.mpr (Or.inl ⟨abs_nonneg _, hden.le⟩)
    exact ⟨h1, fun hcon => absurd (lt_of_lt_of_le hcon h1) (by norm_num)⟩

/-- Witness for C10 at stress -1 MPa: the deviation is non-positive and below
the threshold. -/
theorem epsilon_guard_fails_for_negative_stress_witness :
    deviationAt (-1) 0 ≤ 0 ∧ ¬ (1 / 20 < deviationAt (-1) 0) :=
  epsilon_guard_fails_for_negative_stress.2 (-1) 0 (by with_unfolding_all decide)
